import Mathlib

/-!
Verification of the authentication and recovery subsystem of the
users endpoints (users-public.js, users-admin.js): login, two-step
password recovery with an expiring code cache, per-address rate
limiting, account creation, admin mutations and the aggregate
count/list endpoints.

The express handlers are embedded as pure state-transition functions
on an explicit server state (credential store, the two rate limiters,
the recovery-code cache).  HTTP responses are a status code plus a
small body datatype.  Collaborators that live outside the given
source tree (the Cache class of util.js, the helpers of users.js,
the rate-limiter-flexible library, DEFAULT_USER of constants.js) are
modelled from the specification, as marked on each definition.
-/

namespace STUsers

/-- Association-list lookup: first entry whose key equals k. -/
def lookupA {α : Type} (k : String) : List (String × α) → Option α
  | [] => none
  | (k2, v) :: rest => if k2 = k then some v else lookupA k rest

/-- Association-list removal of every entry with key k. -/
def removeA {α : Type} (k : String) : List (String × α) → List (String × α)
  | [] => []
  | (k2, v) :: rest => if k2 = k then removeA k rest else (k2, v) :: removeA k rest

/-- Association-list overwrite: store v under k, replacing any old entry. -/
def setA {α : Type} (k : String) (v : α) (l : List (String × α)) : List (String × α) :=
  (k, v) :: removeA k l

/-- An account record, as stored by users-public.js /create:
handle, display name, creation timestamp, password hash, password
salt, admin flag, enabled flag. -/
structure User where
  handle : String
  name : String
  created : Nat
  password : String
  salt : String
  admin : Bool
  enabled : Bool
deriving DecidableEq, Repr

/-- The credential store: node-persist key-value storage, restricted to
the user records.  Keys are produced by toKey. -/
abbrev Store := List (String × User)

/-- Modelled from the spec: the key namespace of users.js (not in the
given sources); user records are stored under a fixed key namespace
marker followed by the normalized handle. -/
def KEY_PFX : String := "user:"

/-- Modelled from the spec: toKey of users.js maps a handle to its
storage key by prepending the key namespace marker. -/
def toKey (handle : String) : String := KEY_PFX ++ handle

/-- Modelled from the spec: getPasswordHash of users.js is a
deterministic one-way function of password and salt; modelled as an
injective tagged pairing so that it is executable and deterministic. -/
def getPasswordHash (password salt : String) : String :=
  "H(" ++ password ++ "," ++ salt ++ ")"

/-- The startsWith test of the storage key filters, computed on the
character lists so that it evaluates by structural recursion. -/
def strStartsWith (pre s : String) : Bool :=
  pre.toList.isPrefixOf s.toList

/-- Modelled from the spec: storage.values with the key-namespace filter
returns every user record in the store. -/
def storageValues (s : Store) : List User :=
  (s.filter (fun e => strStartsWith KEY_PFX e.1)).map (fun e => e.2)

/-- Modelled from the spec: getAllUserHandles of users.js lists the
stored keys in the user namespace with the namespace marker stripped. -/
def getAllUserHandles (s : Store) : List String :=
  (s.filter (fun e => strStartsWith KEY_PFX e.1)).map
    (fun e => String.mk (e.1.toList.drop KEY_PFX.toList.length))

/-- One rate-limit bucket: points consumed so far in the current
window, and the window start time (milliseconds). -/
structure Bucket where
  consumed : Nat
  windowStart : Nat
deriving DecidableEq, Repr

/-- Modelled from the spec: RateLimiterMemory of rate-limiter-flexible,
a per-key point-budget tracker; points is the budget per window,
duration the window length in seconds, with fixed-window refill
semantics (one of the two refill policies the spec allows). -/
structure RateLimiter where
  points : Nat
  duration : Nat
  buckets : List (String × Bucket)
deriving DecidableEq, Repr

/-- Modelled from the spec: consume decrements the remaining budget of
the key by one point; with the budget exhausted inside the current
window it fails (Bool false, the RateLimited condition) and changes
nothing; a key with no live window starts a fresh window. -/
def RateLimiter.consume (rl : RateLimiter) (now : Nat) (key : String) : Bool × RateLimiter :=
  match lookupA key rl.buckets with
  | none => (true, { rl with buckets := setA key ⟨1, now⟩ rl.buckets })
  | some b =>
    if now ≥ b.windowStart + rl.duration * 1000 then
      (true, { rl with buckets := setA key ⟨1, now⟩ rl.buckets })
    else if b.consumed < rl.points then
      (true, { rl with buckets := setA key ⟨b.consumed + 1, b.windowStart⟩ rl.buckets })
    else
      (false, rl)

/-- Modelled from the spec: delete resets the budget of the key to full
immediately by discarding its bucket. -/
def RateLimiter.delete (rl : RateLimiter) (key : String) : RateLimiter :=
  { rl with buckets := removeA key rl.buckets }

/-- Points consumed for the key inside the window that is live at time
now (zero when no bucket exists or its window has elapsed). -/
def RateLimiter.live (rl : RateLimiter) (now : Nat) (key : String) : Nat :=
  match lookupA key rl.buckets with
  | none => 0
  | some b => if now ≥ b.windowStart + rl.duration * 1000 then 0 else b.consumed

/-- Modelled from the spec: the Cache class of util.js (not in the given
sources), an expiring key-value store; each entry carries the value and
its absolute expiry time, set at insertion to now plus the fixed ttl. -/
structure Cache where
  ttl : Nat
  entries : List (String × (String × Nat))
deriving DecidableEq, Repr

/-- Modelled from the spec: set stores the value with expiry now + ttl,
overwriting any existing entry for the key. -/
def Cache.set (c : Cache) (now : Nat) (key value : String) : Cache :=
  { c with entries := setA key (value, now + c.ttl) c.entries }

/-- Modelled from the spec: get returns the value when the entry is
present and not yet expired, and a miss otherwise; a logically expired
entry is a miss. -/
def Cache.get (c : Cache) (now : Nat) (key : String) : Option String :=
  match lookupA key c.entries with
  | none => none
  | some (v, expiry) => if now < expiry then some v else none

/-- Modelled from the spec: remove deletes the entry unconditionally. -/
def Cache.remove (c : Cache) (key : String) : Cache :=
  { c with entries := removeA key c.entries }

/-- An HTTP response body, restricted to the shapes users-public.js and
users-admin.js produce on the modelled routes. -/
inductive Body where
  | empty : Body
  | err (msg : String) : Body
  | handleOk (handle : String) : Body
  | counts (total enabled : Nat) : Body
deriving DecidableEq, Repr

/-- An HTTP response: status code and body. -/
structure Resp where
  status : Nat
  body : Body
deriving DecidableEq, Repr

/-- The mutable server state the modelled routes touch: the credential
store, the login limiter, the recovery limiter, MFA_CACHE. -/
structure ServerState where
  store : Store
  loginLimiter : RateLimiter
  recoverLimiter : RateLimiter
  MFA_CACHE : Cache
deriving DecidableEq, Repr

/-- DISCREET_LOGIN constant of users-public.js line 21. -/
def DISCREET_LOGIN : Bool := false

/-- The login limiter as constructed in users-public.js lines 25-28:
5 points per 60 seconds, with no prior activity. -/
def loginLimiterInit : RateLimiter := ⟨5, 60, []⟩

/-- The recovery limiter as constructed in users-public.js lines 29-32:
5 points per 300 seconds, with no prior activity. -/
def recoverLimiterInit : RateLimiter := ⟨5, 300, []⟩

/-- MFA_CACHE as constructed in users-public.js line 22: ttl of five
minutes in milliseconds, initially empty. -/
def mfaCacheInit : Cache := ⟨5 * 60 * 1000, []⟩

/-- POST /login of users-public.js lines 98-144.  Arguments: state,
current time, source address, request handle and password, whether the
session object is available.  An absent password is the empty string. -/
def loginRoute (st : ServerState) (now : Nat) (ip handle password : String)
    (hasSession : Bool) : Resp × ServerState :=
  if handle = "" then (⟨400, .err "Missing required fields"⟩, st)
  else
    match st.loginLimiter.consume now ip with
    | (false, _) =>
      (⟨429, .err "Too many attempts. Try again later or recover your password."⟩, st)
    | (true, lim) =>
      let st1 : ServerState := { st with loginLimiter := lim }
      match lookupA (toKey handle) st1.store with
      | none => (⟨403, .err "Incorrect credentials"⟩, st1)
      | some user =>
        if user.enabled = false then (⟨403, .err "User is disabled"⟩, st1)
        else if user.password ≠ "" ∧ user.password ≠ getPasswordHash password user.salt then
          (⟨403, .err "Incorrect credentials"⟩, st1)
        else if hasSession = false then (⟨500, .empty⟩, st1)
        else
          (⟨200, .handleOk user.handle⟩,
            { st1 with loginLimiter := st1.loginLimiter.delete ip })

/-- POST /recover-step1 of users-public.js lines 146-184.  mfaCode is
the freshly generated random four-digit code (crypto.randomInt), passed
in as a parameter; it is printed out-of-band, never returned. -/
def recoverStep1 (st : ServerState) (now : Nat) (ip handle mfaCode : String) :
    Resp × ServerState :=
  if handle = "" then (⟨400, .err "Missing required fields"⟩, st)
  else
    match st.recoverLimiter.consume now ip with
    | (false, _) =>
      (⟨429, .err "Too many attempts. Try again later or contact your admin."⟩, st)
    | (true, lim) =>
      let st1 : ServerState := { st with recoverLimiter := lim }
      match lookupA (toKey handle) st1.store with
      | none => (⟨404, .err "User not found"⟩, st1)
      | some user =>
        if user.enabled = false then (⟨403, .err "User is disabled"⟩, st1)
        else
          (⟨204, .empty⟩,
            { st1 with MFA_CACHE := st1.MFA_CACHE.set now user.handle mfaCode })

/-- The credential rewrite of recover-step2 lines 215-224: a supplied
new password is hashed with the fresh salt; an absent or empty new
password clears both hash and salt. -/
def step2NewUser (user : User) (newPassword newSalt : String) : User :=
  if newPassword ≠ "" then
    { user with password := getPasswordHash newPassword newSalt, salt := newSalt }
  else
    { user with password := "", salt := "" }

/-- POST /recover-step2 of users-public.js lines 186-238.  newSalt is
the fresh salt from getPasswordSalt, passed in as a parameter; an
absent or empty newPassword clears the credential. -/
def recoverStep2 (st : ServerState) (now : Nat) (ip handle code newPassword newSalt : String) :
    Resp × ServerState :=
  if handle = "" ∨ code = "" then (⟨400, .err "Missing required fields"⟩, st)
  else
    match lookupA (toKey handle) st.store with
    | none => (⟨404, .err "User not found"⟩, st)
    | some user =>
      if user.enabled = false then (⟨403, .err "User is disabled"⟩, st)
      else
        let mfaCode := st.MFA_CACHE.get now user.handle
        if mfaCode ≠ some code then
          match st.recoverLimiter.consume now ip with
          | (false, _) =>
            (⟨429, .err "Too many attempts. Try again later or contact your admin."⟩, st)
          | (true, lim) =>
            (⟨403, .err "Incorrect code"⟩, { st with recoverLimiter := lim })
        else
          let user2 : User := step2NewUser user newPassword newSalt
          let st1 : ServerState := { st with store := setA (toKey user.handle) user2 st.store }
          (⟨204, .empty⟩,
            { st1 with recoverLimiter := st1.recoverLimiter.delete ip,
                       MFA_CACHE := st1.MFA_CACHE.remove user.handle })

/-- Collects the maximal alphanumeric runs of a character list; the
second argument accumulates the current run in reverse. -/
def alnumRuns : List Char → List Char → List (List Char)
  | [], acc => if acc.isEmpty then [] else [acc.reverse]
  | c :: cs, acc =>
    if c.isAlphanum then alnumRuns cs (c :: acc)
    else if acc.isEmpty then alnumRuns cs [] else acc.reverse :: alnumRuns cs []

/-- Joins character runs with hyphens. -/
def joinHyphen : List (List Char) → List Char
  | [] => []
  | [w] => w
  | w :: ws => w ++ '-' :: joinHyphen ws

/-- Modelled from the interface of the external lodash library composed
with the toLowerCase and trim calls of the create route: lower-cases
the string and joins its maximal alphanumeric runs with hyphens. -/
def kebabCase (s : String) : String :=
  String.mk (joinHyphen (alnumRuns (s.toList.map Char.toLower) []))

/-- POST /create of users-public.js lines 240-288.  salt is the fresh
salt from getPasswordSalt, passed in as a parameter; it is generated
and stored whether or not a password was supplied, while the stored
hash is empty when no password was supplied. -/
def createRoute (st : ServerState) (now : Nat) (handleRaw name password salt : String) :
    Resp × ServerState :=
  if handleRaw = "" ∨ name = "" then (⟨400, .err "Missing required fields"⟩, st)
  else
    let handles := getAllUserHandles st.store
    let isFirstUser := handles.length = 0
    let handle := kebabCase handleRaw
    if handle = "" then (⟨400, .err "Invalid handle"⟩, st)
    else if handles.contains handle then (⟨409, .err "User already exists"⟩, st)
    else
      let newUser : User :=
        { handle := handle
          name := if name ≠ "" then name else "Anonymous"
          created := now
          password := if password ≠ "" then getPasswordHash password salt else ""
          salt := salt
          admin := isFirstUser
          enabled := true }
      (⟨200, .handleOk newUser.handle⟩,
        { st with store := setA (toKey handle) newUser st.store })

/-- POST /list of users-public.js lines 34-54: with discreet mode off,
returns only the total and enabled user counts. -/
def listRoute (st : ServerState) : Resp :=
  if DISCREET_LOGIN then ⟨204, .empty⟩
  else
    let users := storageValues st.store
    let enabledUsers := users.filter (fun u => u.enabled)
    ⟨200, .counts users.length enabledUsers.length⟩

/-- GET /count of users-public.js lines 290-308: identical aggregate
counts as /list. -/
def countRoute (st : ServerState) : Resp :=
  if DISCREET_LOGIN then ⟨204, .empty⟩
  else
    let users := storageValues st.store
    let enabledUsers := users.filter (fun u => u.enabled)
    ⟨200, .counts users.length enabledUsers.length⟩

/-- Modelled from the spec: the handle of the distinguished fallback
account DEFAULT_USER of constants.js (not in the given sources). -/
def DEFAULT_USER_handle : String := "default-user"

/-- POST /disable of users-admin.js lines 77-104.  callerHandle is the
handle of the authenticated admin making the request. -/
def disableRoute (st : ServerState) (callerHandle handle : String) : Resp × ServerState :=
  if handle = "" then (⟨400, .err "Missing required fields"⟩, st)
  else if handle = callerHandle then (⟨400, .err "Cannot disable yourself"⟩, st)
  else
    match lookupA (toKey handle) st.store with
    | none => (⟨404, .err "User not found"⟩, st)
    | some user =>
      (⟨204, .empty⟩,
        { st with store := setA (toKey handle) { user with enabled := false } st.store })

/-- POST /demote of users-admin.js lines 154-181. -/
def demoteRoute (st : ServerState) (callerHandle handle : String) : Resp × ServerState :=
  if handle = "" then (⟨400, .err "Missing required fields"⟩, st)
  else if handle = callerHandle then (⟨400, .err "Cannot demote yourself"⟩, st)
  else
    match lookupA (toKey handle) st.store with
    | none => (⟨404, .err "User not found"⟩, st)
    | some user =>
      (⟨204, .empty⟩,
        { st with store := setA (toKey handle) { user with admin := false } st.store })

/-- POST /delete of users-admin.js lines 183-213 (the purge branch only
touches the filesystem, not the credential store). -/
def deleteRoute (st : ServerState) (callerHandle handle : String) : Resp × ServerState :=
  if handle = "" then (⟨400, .err "Missing required fields"⟩, st)
  else if handle = callerHandle then (⟨400, .err "Cannot delete yourself"⟩, st)
  else if handle = DEFAULT_USER_handle then
    (⟨400, .err "Sorry, but the default user cannot be deleted. It is required as a fallback."⟩, st)
  else
    (⟨204, .empty⟩, { st with store := removeA (toKey handle) st.store })

/-- Run a sequence of login attempts from one source address, threading
the state; each attempt is a time, a handle and a password; returns the
list of responses. -/
def loginSeq (ip : String) (st : ServerState) : List (Nat × String × String) → List Resp
  | [] => []
  | (t, h, p) :: rest =>
    let r := loginRoute st t ip h p true
    r.1 :: loginSeq ip r.2 rest

/-! Association-list and component lemmas. -/

theorem lookupA_setA_self {α : Type} (k : String) (v : α) (l : List (String × α)) :
    lookupA k (setA k v l) = some v := by
  simp [setA, lookupA]

theorem lookupA_removeA_self {α : Type} (k : String) (l : List (String × α)) :
    lookupA k (removeA k l) = none := by
  induction l with
  | nil => rfl
  | cons e rest ih =>
    obtain ⟨k2, v⟩ := e
    by_cases h : k2 = k
    · simpa [removeA, h] using ih
    · simp [removeA, lookupA, h, ih]

theorem removeA_removeA {α : Type} (k : String) (l : List (String × α)) :
    removeA k (removeA k l) = removeA k l := by
  induction l with
  | nil => rfl
  | cons e rest ih =>
    obtain ⟨k2, v⟩ := e
    by_cases h : k2 = k
    · simp [removeA, h, ih]
    · simp [removeA, h, ih]

theorem setA_setA {α : Type} (k : String) (v w : α) (l : List (String × α)) :
    setA k v (setA k w l) = setA k v l := by
  simp [setA, removeA, removeA_removeA]

theorem cache_get_set_self (c : Cache) (now t : Nat) (k v : String) :
    (c.set now k v).get t k = if t < now + c.ttl then some v else none := by
  simp [Cache.set, Cache.get, lookupA_setA_self]

theorem cache_get_remove_self (c : Cache) (t : Nat) (k : String) :
    (c.remove k).get t k = none := by
  simp [Cache.remove, Cache.get, lookupA_removeA_self]

/-- A consume with budget left in the live window succeeds and raises the
live consumption for that key by exactly one. -/
theorem consume_live_succ (rl : RateLimiter) (now : Nat) (key : String)
    (hd : 0 < rl.duration) (h : rl.live now key < rl.points) :
    (rl.consume now key).1 = true ∧
    (rl.consume now key).2.live now key = rl.live now key + 1 := by
  have hno : ¬ (now ≥ now + rl.duration * 1000) := by omega
  cases hb : lookupA key rl.buckets with
  | none =>
    have h0 : rl.live now key = 0 := by simp [RateLimiter.live, hb]
    rw [h0]
    refine ⟨?_, ?_⟩
    · simp [RateLimiter.consume, hb]
    · simp [RateLimiter.consume, hb, RateLimiter.live, lookupA_setA_self, hno]
  | some b =>
    by_cases hexp : now ≥ b.windowStart + rl.duration * 1000
    · have h0 : rl.live now key = 0 := by simp [RateLimiter.live, hb, hexp]
      rw [h0]
      refine ⟨?_, ?_⟩
      · simp [RateLimiter.consume, hb, hexp]
      · simp [RateLimiter.consume, hb, hexp, RateLimiter.live, lookupA_setA_self, hno]
    · have h0 : rl.live now key = b.consumed := by simp [RateLimiter.live, hb, hexp]
      rw [h0] at h ⊢
      refine ⟨?_, ?_⟩
      · simp [RateLimiter.consume, hb, hexp, h]
      · simp [RateLimiter.consume, hb, hexp, h, RateLimiter.live, lookupA_setA_self]

/-- A login attempt with a non-empty handle that is not in the store and
a non-exhausted login limiter fails 403 with the vague credentials
message, keeping the consumed point. -/
theorem login_notfound_step
    (st : ServerState) (now : Nat) (ip h p : String)
    (hh : h ≠ "") (hm : lookupA (toKey h) st.store = none)
    (hcons : (st.loginLimiter.consume now ip).1 = true) :
    loginRoute st now ip h p true
      = (⟨403, .err "Incorrect credentials"⟩,
          { st with loginLimiter := (st.loginLimiter.consume now ip).2 }) := by
  rcases hx : st.loginLimiter.consume now ip with ⟨b, lim⟩
  rw [hx] at hcons
  simp only at hcons
  subst hcons
  simp [loginRoute, hh, hx, hm]

/-- A login attempt with a non-empty handle and an exhausted login
limiter fails 429, leaving the state unchanged. -/
theorem login_ratelimited_step
    (st : ServerState) (now : Nat) (ip h p : String)
    (hh : h ≠ "")
    (hcons : (st.loginLimiter.consume now ip).1 = false) :
    loginRoute st now ip h p true
      = (⟨429, .err "Too many attempts. Try again later or recover your password."⟩, st) := by
  rcases hx : st.loginLimiter.consume now ip with ⟨b, lim⟩
  rw [hx] at hcons
  simp only at hcons
  subst hcons
  simp [loginRoute, hh, hx]

/-- A recovery step 1 on an existing enabled account with limiter budget
left succeeds 204 and caches the fresh code under the account handle. -/
theorem recover_step1_ok
    (st : ServerState) (now : Nat) (ip h c : String) (user : User)
    (hh : h ≠ "") (hu : lookupA (toKey h) st.store = some user)
    (hen : user.enabled = true)
    (hcons : (st.recoverLimiter.consume now ip).1 = true) :
    recoverStep1 st now ip h c
      = (⟨204, .empty⟩,
         { st with recoverLimiter := (st.recoverLimiter.consume now ip).2,
                   MFA_CACHE := st.MFA_CACHE.set now user.handle c }) := by
  rcases hx : st.recoverLimiter.consume now ip with ⟨b, lim⟩
  rw [hx] at hcons
  simp only at hcons
  subst hcons
  simp [recoverStep1, hh, hx, hu, hen]

/-- A recovery step 2 whose supplied code does not match the cached
value (a miss included) consumes a recovery-limiter point and fails 403
with the bad-code message, touching nothing else. -/
theorem step2_badcode
    (st : ServerState) (now : Nat) (ip h c np ns : String) (user : User)
    (hh : h ≠ "") (hc : c ≠ "")
    (hu : lookupA (toKey h) st.store = some user)
    (hen : user.enabled = true)
    (hmis : st.MFA_CACHE.get now user.handle ≠ some c)
    (hcons : (st.recoverLimiter.consume now ip).1 = true) :
    recoverStep2 st now ip h c np ns
      = (⟨403, .err "Incorrect code"⟩,
         { st with recoverLimiter := (st.recoverLimiter.consume now ip).2 }) := by
  rcases hx : st.recoverLimiter.consume now ip with ⟨b, lim⟩
  rw [hx] at hcons
  simp only at hcons
  subst hcons
  simp [recoverStep2, hh, hc, hu, hen, hmis, hx]

/-- A recovery step 2 with a matching code rewrites the credential,
resets the limiter for the address and removes the cached code. -/
theorem step2_success
    (st : ServerState) (now : Nat) (ip h c np ns : String) (user : User)
    (hh : h ≠ "") (hc : c ≠ "")
    (hu : lookupA (toKey h) st.store = some user)
    (hen : user.enabled = true)
    (hmatch : st.MFA_CACHE.get now user.handle = some c) :
    recoverStep2 st now ip h c np ns
      = (⟨204, .empty⟩,
         { st with
             store := setA (toKey user.handle) (step2NewUser user np ns) st.store,
             recoverLimiter := st.recoverLimiter.delete ip,
             MFA_CACHE := st.MFA_CACHE.remove user.handle }) := by
  simp [recoverStep2, hh, hc, hu, hen, hmatch]

/-- The recover-step2 credential rewrite never changes the enabled flag
or the handle of the record. -/
theorem step2NewUser_fields (user : User) (np ns : String) :
    (step2NewUser user np ns).enabled = user.enabled ∧
    (step2NewUser user np ns).handle = user.handle := by
  unfold step2NewUser
  by_cases hnp : np ≠ "" <;> simp [hnp]

/-! Concrete fixtures for witnesses and counterexamples. -/

/-- An enabled passwordless account. -/
def aliceU : User :=
  { handle := "alice", name := "Alice", created := 0, password := "", salt := "",
    admin := true, enabled := true }

/-- A disabled account. -/
def bobU : User :=
  { handle := "bob", name := "Bob", created := 1, password := "", salt := "",
    admin := false, enabled := false }

/-- Server state holding only the passwordless account. -/
def stAlice : ServerState :=
  ⟨[(toKey "alice", aliceU)], loginLimiterInit, recoverLimiterInit, mfaCacheInit⟩

/-- Server state holding only the disabled account. -/
def stBob : ServerState :=
  ⟨[(toKey "bob", bobU)], loginLimiterInit, recoverLimiterInit, mfaCacheInit⟩

/-- Empty server state. -/
def stEmpty : ServerState :=
  ⟨[], loginLimiterInit, recoverLimiterInit, mfaCacheInit⟩

/-! Claims. -/

/-- C3: for every enabled account whose stored password hash is the
empty string, login succeeds and returns that account handle
regardless of the supplied password. -/
theorem login_passwordless_always_succeeds
    (st : ServerState) (now : Nat) (ip handle password : String) (user : User)
    (hh : handle ≠ "")
    (huser : lookupA (toKey handle) st.store = some user)
    (hen : user.enabled = true)
    (hpw : user.password = "")
    (hlim : (st.loginLimiter.consume now ip).1 = true) :
    (loginRoute st now ip handle password true).1 = ⟨200, .handleOk user.handle⟩ := by
  rcases hx : st.loginLimiter.consume now ip with ⟨b, lim⟩
  rw [hx] at hlim
  simp only at hlim
  subst hlim
  simp [loginRoute, hh, hx, huser, hen, hpw]

/-- Witness for C3 at a concrete passwordless account and two different
supplied passwords. -/
theorem login_passwordless_always_succeeds_witness :
    (loginRoute stAlice 0 "1.2.3.4" "alice" "whatever" true).1 = ⟨200, .handleOk "alice"⟩ ∧
    (loginRoute stAlice 0 "1.2.3.4" "alice" "" true).1 = ⟨200, .handleOk "alice"⟩ :=
  ⟨login_passwordless_always_succeeds stAlice 0 "1.2.3.4" "alice" "whatever" aliceU
      (by decide) (by decide) (by decide) (by decide) (by decide),
   login_passwordless_always_succeeds stAlice 0 "1.2.3.4" "alice" "" aliceU
      (by decide) (by decide) (by decide) (by decide) (by decide)⟩

/-- C4 counterexample: at login, a non-existent handle and a disabled
handle both return status 403 but with different bodies, so the two
causes are observationally distinguishable, refuting the claim that
the error messages coincide. -/
theorem login_notfound_disabled_distinct_messages :
    (loginRoute stBob 0 "9.9.9.9" "ghost" "pw" true).1.status = 403 ∧
    (loginRoute stBob 0 "9.9.9.9" "bob" "pw" true).1.status = 403 ∧
    (loginRoute stBob 0 "9.9.9.9" "ghost" "pw" true).1.body
      ≠ (loginRoute stBob 0 "9.9.9.9" "bob" "pw" true).1.body := by
  refine ⟨by decide, by decide, by decide⟩

/-- C4 amended: the status code collapses (both causes yield 403) and
the not-found message equals the bad-credentials message, but a
disabled account yields the distinct message User is disabled. -/
theorem login_notfound_disabled_status_collapse
    (st : ServerState) (now : Nat) (ip h1 h2 p1 p2 : String) (user : User)
    (hh1 : h1 ≠ "") (hh2 : h2 ≠ "")
    (hmiss : lookupA (toKey h1) st.store = none)
    (huser : lookupA (toKey h2) st.store = some user)
    (hdis : user.enabled = false)
    (hlim : (st.loginLimiter.consume now ip).1 = true) :
    (loginRoute st now ip h1 p1 true).1 = ⟨403, .err "Incorrect credentials"⟩ ∧
    (loginRoute st now ip h2 p2 true).1 = ⟨403, .err "User is disabled"⟩ := by
  rcases hx : st.loginLimiter.consume now ip with ⟨b, lim⟩
  rw [hx] at hlim
  simp only at hlim
  subst hlim
  constructor
  · simp [loginRoute, hh1, hx, hmiss]
  · simp [loginRoute, hh2, hx, huser, hdis]

/-- Witness for the amended C4 at a concrete store with one disabled
account. -/
theorem login_notfound_disabled_status_collapse_witness :
    (loginRoute stBob 0 "9.9.9.9" "ghost" "pw" true).1 = ⟨403, .err "Incorrect credentials"⟩ ∧
    (loginRoute stBob 0 "9.9.9.9" "bob" "pw" true).1 = ⟨403, .err "User is disabled"⟩ :=
  login_notfound_disabled_status_collapse stBob 0 "9.9.9.9" "ghost" "bob" "pw" "pw" bobU
    (by decide) (by decide) (by decide) (by decide) (by decide) (by decide)

/-- C9: the admin disable, demote and delete routes invoked by an
authenticated caller on the caller own handle always fail 400 with a
self-action error and change no state, and delete on the fallback
account handle always fails 400 and removes nothing. -/
theorem admin_self_and_default_protection
    (st : ServerState) (caller : String) (hc : caller ≠ "") :
    disableRoute st caller caller = (⟨400, .err "Cannot disable yourself"⟩, st) ∧
    demoteRoute st caller caller = (⟨400, .err "Cannot demote yourself"⟩, st) ∧
    deleteRoute st caller caller = (⟨400, .err "Cannot delete yourself"⟩, st) ∧
    (deleteRoute st caller DEFAULT_USER_handle).1.status = 400 ∧
    (deleteRoute st caller DEFAULT_USER_handle).2 = st := by
  refine ⟨?_, ?_, ?_, ?_, ?_⟩
  · simp [disableRoute, hc]
  · simp [demoteRoute, hc]
  · simp [deleteRoute, hc]
  · by_cases h : ("default-user" : String) = caller
    · simp [deleteRoute, DEFAULT_USER_handle, h, hc]
    · simp [deleteRoute, DEFAULT_USER_handle, h]
  · by_cases h : ("default-user" : String) = caller
    · simp [deleteRoute, DEFAULT_USER_handle, h, hc]
    · simp [deleteRoute, DEFAULT_USER_handle, h]

/-- Witness for C9 at a concrete state and caller. -/
theorem admin_self_and_default_protection_witness :
    disableRoute stAlice "alice" "alice" = (⟨400, .err "Cannot disable yourself"⟩, stAlice) ∧
    demoteRoute stAlice "alice" "alice" = (⟨400, .err "Cannot demote yourself"⟩, stAlice) ∧
    deleteRoute stAlice "alice" "alice" = (⟨400, .err "Cannot delete yourself"⟩, stAlice) ∧
    (deleteRoute stAlice "alice" DEFAULT_USER_handle).1.status = 400 ∧
    (deleteRoute stAlice "alice" DEFAULT_USER_handle).2 = stAlice :=
  admin_self_and_default_protection stAlice "alice" (by decide)

/-- C10: the public list and count routes reveal only the aggregate
total and enabled counts: any two states agreeing on those two numbers
produce identical responses, the response is exactly a 200 carrying the
two integers, and both routes coincide. -/
theorem list_count_reveal_only_aggregates
    (s1 s2 : ServerState)
    (htot : (storageValues s1.store).length = (storageValues s2.store).length)
    (hen : ((storageValues s1.store).filter (fun u => u.enabled)).length
         = ((storageValues s2.store).filter (fun u => u.enabled)).length) :
    listRoute s1 = listRoute s2 ∧ countRoute s1 = countRoute s2 ∧
    listRoute s1 = ⟨200, .counts (storageValues s1.store).length
        (((storageValues s1.store).filter (fun u => u.enabled)).length)⟩ ∧
    countRoute s1 = listRoute s1 := by
  refine ⟨?_, ?_, ?_, ?_⟩ <;>
    simp [listRoute, countRoute, DISCREET_LOGIN, htot, hen]

/-- Witness for C10 at two different stores with equal counts: the
responses agree and contain only the two integers. -/
theorem list_count_reveal_only_aggregates_witness :
    listRoute stAlice
        = listRoute ⟨[(toKey "zed",
            { handle := "zed", name := "Zed", created := 7, password := "h", salt := "s",
              admin := false, enabled := true })],
            loginLimiterInit, recoverLimiterInit, mfaCacheInit⟩ ∧
    countRoute stAlice
        = countRoute ⟨[(toKey "zed",
            { handle := "zed", name := "Zed", created := 7, password := "h", salt := "s",
              admin := false, enabled := true })],
            loginLimiterInit, recoverLimiterInit, mfaCacheInit⟩ ∧
    listRoute stAlice = ⟨200, .counts 1 1⟩ ∧
    countRoute stAlice = listRoute stAlice := by
  have h := list_count_reveal_only_aggregates stAlice
    ⟨[(toKey "zed",
        { handle := "zed", name := "Zed", created := 7, password := "h", salt := "s",
          admin := false, enabled := true })],
        loginLimiterInit, recoverLimiterInit, mfaCacheInit⟩
    (by decide) (by decide)
  exact ⟨h.1, h.2.1, h.2.2.1, h.2.2.2⟩

/-- An enabled account with a non-empty credential. -/
def alicePw : User :=
  { handle := "alice", name := "Alice", created := 0, password := "H(old,s0)", salt := "s0",
    admin := true, enabled := true }

/-- Server state with one enabled account and an outstanding recovery
code 1234 for it, cached with expiry 300000. -/
def stRec : ServerState :=
  ⟨[(toKey "alice", alicePw)], loginLimiterInit, recoverLimiterInit,
    ⟨5 * 60 * 1000, [("alice", ("1234", 300000))]⟩⟩

/-- C5 counterexample: creating an account without a password stores the
freshly generated salt, not an empty one; here generateSalt returned
a1b2 and the stored record carries it next to the empty hash, refuting
the claim that creation stores an empty salt. -/
theorem create_without_password_keeps_fresh_salt :
    (lookupA (toKey "alice") (createRoute stEmpty 0 "alice" "Alice" "" "a1b2").2.store).map
        (fun u => (u.password, u.salt)) = some ("", "a1b2") ∧
    ("a1b2" : String) ≠ "" := by
  refine ⟨by decide, by decide⟩

/-- C5 amended: creation without a password stores an empty hash
together with the freshly generated salt, while the both-empty
passwordless state is produced by recovery step 2 when no new password
is supplied. -/
theorem passwordless_hash_salt_states
    (st st2 : ServerState) (now now2 : Nat) (handleRaw name salt : String)
    (ip handle code ns : String) (user : User)
    (hhr : handleRaw ≠ "") (hnm : name ≠ "")
    (hk : kebabCase handleRaw ≠ "")
    (hfree : (getAllUserHandles st.store).contains (kebabCase handleRaw) = false)
    (hh : handle ≠ "") (hc : code ≠ "")
    (hu : lookupA (toKey handle) st2.store = some user)
    (hen : user.enabled = true)
    (hmatch : st2.MFA_CACHE.get now2 user.handle = some code) :
    (lookupA (toKey (kebabCase handleRaw))
        (createRoute st now handleRaw name "" salt).2.store).map
          (fun u => (u.password, u.salt)) = some ("", salt) ∧
    (lookupA (toKey user.handle)
        (recoverStep2 st2 now2 ip handle code "" ns).2.store).map
          (fun u => (u.password, u.salt)) = some ("", "") := by
  constructor
  · have hfree2 : kebabCase handleRaw ∉ getAllUserHandles st.store := by
      simpa using hfree
    simp [createRoute, hhr, hnm, hk, hfree2, lookupA_setA_self]
  · rw [step2_success st2 now2 ip handle code "" ns user hh hc hu hen hmatch]
    simp [step2NewUser, lookupA_setA_self]

/-- Witness for the amended C5 at a concrete creation and a concrete
recovery. -/
theorem passwordless_hash_salt_states_witness :
    (lookupA (toKey (kebabCase "newbie"))
        (createRoute stEmpty 0 "newbie" "New Bee" "" "a1b2").2.store).map
          (fun u => (u.password, u.salt)) = some ("", "a1b2") ∧
    (lookupA (toKey "alice")
        (recoverStep2 stRec 0 "7.7.7.7" "alice" "1234" "" "s9").2.store).map
          (fun u => (u.password, u.salt)) = some ("", "") :=
  passwordless_hash_salt_states stEmpty stRec 0 0 "newbie" "New Bee" "a1b2"
    "7.7.7.7" "alice" "1234" "s9" alicePw
    (by decide) (by decide) (by decide) (by decide) (by decide) (by decide)
    (by decide) (by decide) (by decide)

/-- C2: a recovery step 2 whose supplied code does not equal the cached
code (a cache miss included) fails 403 with the bad-code error, leaves
the whole credential store unchanged, and consumes exactly one
recovery-limiter point for the source address. -/
theorem recover_step2_mismatch_no_partial_state
    (st : ServerState) (now : Nat) (ip handle code newPassword newSalt : String) (user : User)
    (hh : handle ≠ "") (hc : code ≠ "")
    (huser : lookupA (toKey handle) st.store = some user)
    (hen : user.enabled = true)
    (hmis : st.MFA_CACHE.get now user.handle ≠ some code)
    (hpts : st.recoverLimiter.points = 5)
    (hdur : st.recoverLimiter.duration = 300)
    (hlive : st.recoverLimiter.live now ip < 5) :
    (recoverStep2 st now ip handle code newPassword newSalt).1 = ⟨403, .err "Incorrect code"⟩ ∧
    (recoverStep2 st now ip handle code newPassword newSalt).2.store = st.store ∧
    (recoverStep2 st now ip handle code newPassword newSalt).2.recoverLimiter.live now ip
      = st.recoverLimiter.live now ip + 1 := by
  have hcl := consume_live_succ st.recoverLimiter now ip (by omega) (by omega)
  rw [step2_badcode st now ip handle code newPassword newSalt user hh hc huser hen hmis hcl.1]
  exact ⟨rfl, rfl, hcl.2⟩

/-- Witness for C2: a wrong code against the outstanding 1234 challenge
fails 403, keeps the store intact and costs one limiter point. -/
theorem recover_step2_mismatch_no_partial_state_witness :
    (recoverStep2 stRec 0 "7.7.7.7" "alice" "9999" "npw" "s9").1
      = ⟨403, .err "Incorrect code"⟩ ∧
    (recoverStep2 stRec 0 "7.7.7.7" "alice" "9999" "npw" "s9").2.store = stRec.store ∧
    (recoverStep2 stRec 0 "7.7.7.7" "alice" "9999" "npw" "s9").2.recoverLimiter.live 0 "7.7.7.7"
      = stRec.recoverLimiter.live 0 "7.7.7.7" + 1 :=
  recover_step2_mismatch_no_partial_state stRec 0 "7.7.7.7" "alice" "9999" "npw" "s9" alicePw
    (by decide) (by decide) (by decide) (by decide) (by decide) (by decide) (by decide)
    (by decide)

/-- C6: a recovery challenge expires five minutes after issuance: a
step-2 verification at or after the TTL boundary fails 403 bad-code
even with exactly the issued code, because the expired cache entry is
a miss. -/
theorem recovery_code_expires_after_ttl
    (st : ServerState) (t0 t : Nat) (ip h c np ns : String) (user : User)
    (hh : h ≠ "") (hc : c ≠ "")
    (hu : lookupA (toKey h) st.store = some user)
    (hen : user.enabled = true)
    (httl : st.MFA_CACHE.ttl = 5 * 60 * 1000)
    (hdur : st.recoverLimiter.duration = 300)
    (hfresh : lookupA ip st.recoverLimiter.buckets = none)
    (hexp : t0 + 5 * 60 * 1000 ≤ t) :
    (recoverStep1 st t0 ip h c).1 = ⟨204, .empty⟩ ∧
    (recoverStep2 (recoverStep1 st t0 ip h c).2 t ip h c np ns).1
      = ⟨403, .err "Incorrect code"⟩ := by
  have hc0 : st.recoverLimiter.consume t0 ip
      = (true, { st.recoverLimiter with buckets := setA ip ⟨1, t0⟩ st.recoverLimiter.buckets }) := by
    simp [RateLimiter.consume, hfresh]
  have e1 := recover_step1_ok st t0 ip h c user hh hu hen (by rw [hc0])
  have h2 : (recoverStep1 st t0 ip h c).2
      = { st with
            recoverLimiter :=
              { st.recoverLimiter with buckets := setA ip ⟨1, t0⟩ st.recoverLimiter.buckets },
            MFA_CACHE := st.MFA_CACHE.set t0 user.handle c } := by
    rw [e1, hc0]
  refine ⟨by rw [e1], ?_⟩
  rw [h2]
  have hmis : (st.MFA_CACHE.set t0 user.handle c).get t user.handle ≠ some c := by
    rw [cache_get_set_self]
    rw [if_neg (by omega)]
    simp
  have hcons : (({ st.recoverLimiter with
      buckets := setA ip ⟨1, t0⟩ st.recoverLimiter.buckets } : RateLimiter).consume t ip).1
        = true := by
    have hge : t ≥ t0 + st.recoverLimiter.duration * 1000 := by omega
    simp [RateLimiter.consume, lookupA_setA_self, hge]
  rw [step2_badcode
      { st with
          recoverLimiter :=
            { st.recoverLimiter with buckets := setA ip ⟨1, t0⟩ st.recoverLimiter.buckets },
          MFA_CACHE := st.MFA_CACHE.set t0 user.handle c }
      t ip h c np ns user hh hc hu hen hmis hcons]

/-- Witness for C6: the 1234 challenge cached at time 0 cannot be
verified at time 300000 even with code 1234. -/
theorem recovery_code_expires_after_ttl_witness :
    (recoverStep1 stAlice 0 "6.6.6.6" "alice" "1234").1 = ⟨204, .empty⟩ ∧
    (recoverStep2 (recoverStep1 stAlice 0 "6.6.6.6" "alice" "1234").2
        300000 "6.6.6.6" "alice" "1234" "np" "s9").1
      = ⟨403, .err "Incorrect code"⟩ :=
  recovery_code_expires_after_ttl stAlice 0 300000 "6.6.6.6" "alice" "1234" "np" "s9" aliceU
    (by decide) (by decide) (by decide) (by decide) (by decide) (by decide) (by decide)
    (by decide)

/-- C7: a recovery challenge is single-use: a successful step-2 removes
the cached challenge and resets the recovery limiter for the address,
and repeating the same step-2 with the same code fails 403 bad-code. -/
theorem recovery_code_single_use
    (st : ServerState) (t1 t2 : Nat) (ip h c np ns np2 ns2 : String) (user : User)
    (hh : h ≠ "") (hc : c ≠ "")
    (hu : lookupA (toKey h) st.store = some user)
    (huh : user.handle = h)
    (hen : user.enabled = true)
    (hmatch : st.MFA_CACHE.get t1 user.handle = some c) :
    (recoverStep2 st t1 ip h c np ns).1 = ⟨204, .empty⟩ ∧
    (recoverStep2 st t1 ip h c np ns).2.MFA_CACHE.get t2 user.handle = none ∧
    lookupA ip (recoverStep2 st t1 ip h c np ns).2.recoverLimiter.buckets = none ∧
    (recoverStep2 (recoverStep2 st t1 ip h c np ns).2 t2 ip h c np2 ns2).1
      = ⟨403, .err "Incorrect code"⟩ := by
  have e1 := step2_success st t1 ip h c np ns user hh hc hu hen hmatch
  refine ⟨by rw [e1], ?_, ?_, ?_⟩
  · rw [e1]
    exact cache_get_remove_self _ _ _
  · rw [e1]
    exact lookupA_removeA_self _ _
  · have hflds := step2NewUser_fields user np ns
    have hlook : lookupA (toKey h) (setA (toKey user.handle) (step2NewUser user np ns) st.store)
        = some (step2NewUser user np ns) := by
      rw [huh]
      exact lookupA_setA_self _ _ _
    have hen2 : (step2NewUser user np ns).enabled = true := by rw [hflds.1, hen]
    have hmis2 : (st.MFA_CACHE.remove user.handle).get t2 (step2NewUser user np ns).handle
        ≠ some c := by
      rw [hflds.2, cache_get_remove_self]
      simp
    have hcons2 : (((st.recoverLimiter.delete ip)).consume t2 ip).1 = true := by
      simp [RateLimiter.delete, RateLimiter.consume, lookupA_removeA_self]
    rw [e1]
    rw [step2_badcode _ t2 ip h c np2 ns2 (step2NewUser user np ns) hh hc hlook hen2 hmis2 hcons2]

/-- Witness for C7 at the concrete outstanding 1234 challenge. -/
theorem recovery_code_single_use_witness :
    (recoverStep2 stRec 0 "7.7.7.7" "alice" "1234" "np" "s9").1 = ⟨204, .empty⟩ ∧
    (recoverStep2 stRec 0 "7.7.7.7" "alice" "1234" "np" "s9").2.MFA_CACHE.get 1 "alice" = none ∧
    lookupA "7.7.7.7" (recoverStep2 stRec 0 "7.7.7.7" "alice" "1234" "np" "s9").2.recoverLimiter.buckets = none ∧
    (recoverStep2 (recoverStep2 stRec 0 "7.7.7.7" "alice" "1234" "np" "s9").2
        1 "7.7.7.7" "alice" "1234" "np" "s9").1
      = ⟨403, .err "Incorrect code"⟩ :=
  recovery_code_single_use stRec 0 1 "7.7.7.7" "alice" "1234" "np" "s9" "np" "s9" alicePw
    (by decide) (by decide) (by decide) (by decide) (by decide) (by decide)

/-- C8: issuing a second recovery challenge for the same handle
overwrites the first: the cache then holds exactly the second code, and
verifying with the first (different) code fails 403 bad-code. -/
theorem recovery_reissue_invalidates_first
    (st : ServerState) (t1 t2 t3 : Nat) (ip h c1 c2 np ns : String) (user : User)
    (hh : h ≠ "") (hc1 : c1 ≠ "") (hcc : c1 ≠ c2)
    (hu : lookupA (toKey h) st.store = some user)
    (hen : user.enabled = true)
    (hpts : st.recoverLimiter.points = 5)
    (hdur : st.recoverLimiter.duration = 300)
    (hfresh : lookupA ip st.recoverLimiter.buckets = none)
    (httl : st.MFA_CACHE.ttl = 5 * 60 * 1000)
    (h12 : t1 ≤ t2) (h23 : t2 ≤ t3) (hwin : t3 < t1 + 300 * 1000) :
    (recoverStep1 st t1 ip h c1).1 = ⟨204, .empty⟩ ∧
    (recoverStep1 (recoverStep1 st t1 ip h c1).2 t2 ip h c2).1 = ⟨204, .empty⟩ ∧
    (recoverStep1 (recoverStep1 st t1 ip h c1).2 t2 ip h c2).2.MFA_CACHE.get t2 user.handle
      = some c2 ∧
    (recoverStep2 (recoverStep1 (recoverStep1 st t1 ip h c1).2 t2 ip h c2).2
        t3 ip h c1 np ns).1
      = ⟨403, .err "Incorrect code"⟩ := by
  have hcA : st.recoverLimiter.consume t1 ip
      = (true, { st.recoverLimiter with buckets := setA ip ⟨1, t1⟩ st.recoverLimiter.buckets }) := by
    simp [RateLimiter.consume, hfresh]
  have e1 := recover_step1_ok st t1 ip h c1 user hh hu hen (by rw [hcA])
  have h2 : (recoverStep1 st t1 ip h c1).2
      = { st with
            recoverLimiter :=
              { st.recoverLimiter with buckets := setA ip ⟨1, t1⟩ st.recoverLimiter.buckets },
            MFA_CACHE := st.MFA_CACHE.set t1 user.handle c1 } := by
    rw [e1, hcA]
  have hcB : (({ st.recoverLimiter with
      buckets := setA ip ⟨1, t1⟩ st.recoverLimiter.buckets } : RateLimiter).consume t2 ip)
      = (true, { st.recoverLimiter with buckets := setA ip ⟨2, t1⟩ st.recoverLimiter.buckets }) := by
    have hnge : ¬ (t2 ≥ t1 + st.recoverLimiter.duration * 1000) := by omega
    have hlt : (1 : Nat) < st.recoverLimiter.points := by omega
    simp [RateLimiter.consume, lookupA_setA_self, hnge, hlt, setA_setA]
  have e2 := recover_step1_ok
    { st with
        recoverLimiter :=
          { st.recoverLimiter with buckets := setA ip ⟨1, t1⟩ st.recoverLimiter.buckets },
        MFA_CACHE := st.MFA_CACHE.set t1 user.handle c1 }
    t2 ip h c2 user hh hu hen (by rw [hcB])
  have h3 : (recoverStep1 (recoverStep1 st t1 ip h c1).2 t2 ip h c2).2
      = { st with
            recoverLimiter :=
              { st.recoverLimiter with buckets := setA ip ⟨2, t1⟩ st.recoverLimiter.buckets },
            MFA_CACHE := (st.MFA_CACHE.set t1 user.handle c1).set t2 user.handle c2 } := by
    rw [h2, e2, hcB]
  have hget3 : ((st.MFA_CACHE.set t1 user.handle c1).set t2 user.handle c2).get t3 user.handle
      = some c2 := by
    rw [cache_get_set_self]
    rw [if_pos (by simp [Cache.set]; omega)]
  refine ⟨by rw [e1], ?_, ?_, ?_⟩
  · rw [h2, e2]
  · rw [h3, cache_get_set_self]
    rw [if_pos (by simp [Cache.set]; omega)]
  · rw [h3]
    have hmis : ((st.MFA_CACHE.set t1 user.handle c1).set t2 user.handle c2).get t3 user.handle
        ≠ some c1 := by
      rw [hget3]
      simp
      exact fun hx => hcc hx.symm
    have hcons : (({ st.recoverLimiter with
        buckets := setA ip ⟨2, t1⟩ st.recoverLimiter.buckets } : RateLimiter).consume t3 ip).1
        = true := by
      have hnge : ¬ (t3 ≥ t1 + st.recoverLimiter.duration * 1000) := by omega
      have hlt : (2 : Nat) < st.recoverLimiter.points := by omega
      simp [RateLimiter.consume, lookupA_setA_self, hnge, hlt]
    rw [step2_badcode
        { st with
            recoverLimiter :=
              { st.recoverLimiter with buckets := setA ip ⟨2, t1⟩ st.recoverLimiter.buckets },
            MFA_CACHE := (st.MFA_CACHE.set t1 user.handle c1).set t2 user.handle c2 }
        t3 ip h c1 np ns user hh hc1 hu hen hmis hcons]

/-- Witness for C8: code 1111 issued, then 2222 issued for the same
handle; verifying 1111 afterwards fails. -/
theorem recovery_reissue_invalidates_first_witness :
    (recoverStep1 stAlice 0 "8.8.8.8" "alice" "1111").1 = ⟨204, .empty⟩ ∧
    (recoverStep1 (recoverStep1 stAlice 0 "8.8.8.8" "alice" "1111").2 1 "8.8.8.8" "alice" "2222").1
      = ⟨204, .empty⟩ ∧
    (recoverStep1 (recoverStep1 stAlice 0 "8.8.8.8" "alice" "1111").2
        1 "8.8.8.8" "alice" "2222").2.MFA_CACHE.get 1 "alice" = some "2222" ∧
    (recoverStep2 (recoverStep1 (recoverStep1 stAlice 0 "8.8.8.8" "alice" "1111").2
        1 "8.8.8.8" "alice" "2222").2 2 "8.8.8.8" "alice" "1111" "np" "s9").1
      = ⟨403, .err "Incorrect code"⟩ :=
  recovery_reissue_invalidates_first stAlice 0 1 2 "8.8.8.8" "alice" "1111" "2222" "np" "s9"
    aliceU (by decide) (by decide) (by decide) (by decide) (by decide) (by decide) (by decide)
    (by decide) (by decide) (by decide) (by decide) (by decide)

/-- C1: the login route consumes one login-limiter point keyed by the
source address before the account lookup and never refunds it on
failure: starting from a fresh bucket, six attempts with (possibly
distinct) unknown handles within one 60-second window produce five 403
credential failures and then a 429 rate-limited rejection, not a
not-found response. -/
theorem login_sixth_invalid_attempt_rate_limited
    (st : ServerState) (ip : String)
    (h1 h2 h3 h4 h5 h6 p1 p2 p3 p4 p5 p6 : String)
    (t1 t2 t3 t4 t5 t6 : Nat)
    (hn1 : h1 ≠ "") (hn2 : h2 ≠ "") (hn3 : h3 ≠ "") (hn4 : h4 ≠ "")
    (hn5 : h5 ≠ "") (hn6 : h6 ≠ "")
    (hm1 : lookupA (toKey h1) st.store = none) (hm2 : lookupA (toKey h2) st.store = none)
    (hm3 : lookupA (toKey h3) st.store = none) (hm4 : lookupA (toKey h4) st.store = none)
    (hm5 : lookupA (toKey h5) st.store = none) (hm6 : lookupA (toKey h6) st.store = none)
    (hpts : st.loginLimiter.points = 5) (hdur : st.loginLimiter.duration = 60)
    (hfresh : lookupA ip st.loginLimiter.buckets = none)
    (h12 : t1 ≤ t2) (h23 : t2 ≤ t3) (h34 : t3 ≤ t4) (h45 : t4 ≤ t5) (h56 : t5 ≤ t6)
    (hwin : t6 < t1 + 60 * 1000) :
    loginSeq ip st [(t1, h1, p1), (t2, h2, p2), (t3, h3, p3),
                    (t4, h4, p4), (t5, h5, p5), (t6, h6, p6)]
      = [⟨403, .err "Incorrect credentials"⟩, ⟨403, .err "Incorrect credentials"⟩,
         ⟨403, .err "Incorrect credentials"⟩, ⟨403, .err "Incorrect credentials"⟩,
         ⟨403, .err "Incorrect credentials"⟩,
         ⟨429, .err "Too many attempts. Try again later or recover your password."⟩] := by
  have step : ∀ (n tc : Nat) (h p : String), h ≠ "" →
      lookupA (toKey h) st.store = none → tc < t1 + 60 * 1000 → n < 5 →
      loginRoute
          { st with loginLimiter :=
              { st.loginLimiter with buckets := setA ip ⟨n, t1⟩ st.loginLimiter.buckets } }
          tc ip h p true
        = (⟨403, .err "Incorrect credentials"⟩,
           { st with loginLimiter :=
               { st.loginLimiter with buckets := setA ip ⟨n + 1, t1⟩ st.loginLimiter.buckets } }) := by
    intro n tc h p hhx hmx htx hnx
    have hcons : ({ st.loginLimiter with
        buckets := setA ip ⟨n, t1⟩ st.loginLimiter.buckets } : RateLimiter).consume tc ip
        = (true, { st.loginLimiter with
            buckets := setA ip ⟨n + 1, t1⟩ st.loginLimiter.buckets }) := by
      have hnge : ¬ (tc ≥ t1 + st.loginLimiter.duration * 1000) := by omega
      have hlt : n < st.loginLimiter.points := by omega
      simp [RateLimiter.consume, lookupA_setA_self, hnge, hlt, setA_setA]
    rw [login_notfound_step
        { st with loginLimiter :=
            { st.loginLimiter with buckets := setA ip ⟨n, t1⟩ st.loginLimiter.buckets } }
        tc ip h p hhx hmx (by simp [hcons])]
    simp [hcons]
  have hc1 : st.loginLimiter.consume t1 ip
      = (true, { st.loginLimiter with buckets := setA ip ⟨1, t1⟩ st.loginLimiter.buckets }) := by
    simp [RateLimiter.consume, hfresh]
  have e1 : loginRoute st t1 ip h1 p1 true
      = (⟨403, .err "Incorrect credentials"⟩,
         { st with loginLimiter :=
             { st.loginLimiter with buckets := setA ip ⟨1, t1⟩ st.loginLimiter.buckets } }) := by
    rw [login_notfound_step st t1 ip h1 p1 hn1 hm1 (by rw [hc1])]
    simp [hc1]
  have e2 := step 1 t2 h2 p2 hn2 hm2 (by omega) (by omega)
  have e3 := step 2 t3 h3 p3 hn3 hm3 (by omega) (by omega)
  have e4 := step 3 t4 h4 p4 hn4 hm4 (by omega) (by omega)
  have e5 := step 4 t5 h5 p5 hn5 hm5 (by omega) (by omega)
  have hc6 : ({ st.loginLimiter with
      buckets := setA ip ⟨5, t1⟩ st.loginLimiter.buckets } : RateLimiter).consume t6 ip
      = (false, { st.loginLimiter with
          buckets := setA ip ⟨5, t1⟩ st.loginLimiter.buckets }) := by
    have hnge : ¬ (t6 ≥ t1 + st.loginLimiter.duration * 1000) := by omega
    have hnlt : ¬ ((5 : Nat) < st.loginLimiter.points) := by omega
    simp [RateLimiter.consume, lookupA_setA_self, hnge, hnlt]
  have e6 := login_ratelimited_step
    { st with loginLimiter :=
        { st.loginLimiter with buckets := setA ip ⟨5, t1⟩ st.loginLimiter.buckets } }
    t6 ip h6 p6 hn6 (by simp [hc6])
  simp only [loginSeq, e1, e2, e3, e4, e5, e6]

/-- Witness for C1: six distinct unknown handles from one address at
times 0..5 against an empty store; the sixth answer is 429. -/
theorem login_sixth_invalid_attempt_rate_limited_witness :
    loginSeq "5.5.5.5" stEmpty
        [(0, "u1", "p"), (1, "u2", "p"), (2, "u3", "p"),
         (3, "u4", "p"), (4, "u5", "p"), (5, "u6", "p")]
      = [⟨403, .err "Incorrect credentials"⟩, ⟨403, .err "Incorrect credentials"⟩,
         ⟨403, .err "Incorrect credentials"⟩, ⟨403, .err "Incorrect credentials"⟩,
         ⟨403, .err "Incorrect credentials"⟩,
         ⟨429, .err "Too many attempts. Try again later or recover your password."⟩] :=
  login_sixth_invalid_attempt_rate_limited stEmpty "5.5.5.5"
    "u1" "u2" "u3" "u4" "u5" "u6" "p" "p" "p" "p" "p" "p" 0 1 2 3 4 5
    (by decide) (by decide) (by decide) (by decide) (by decide) (by decide)
    (by decide) (by decide) (by decide) (by decide) (by decide) (by decide)
    (by decide) (by decide) (by decide)
    (by decide) (by decide) (by decide) (by decide) (by decide) (by decide)

end STUsers
